import Mathlib

/-!
Verification of the authenticated API client session protocol of the
job-agent-system repository: the zustand auth store
(frontend/src/store/auth.ts, whose text is embedded in scripts/deploy.sh)
and the axios gateway interceptors (frontend/src/services/auth.ts).

The embedding models JavaScript runtime values with an inductive type,
the store state as a record of such values plus the two literal boolean
flags, persistence as an optional snapshot, and the gateway pipeline as a
fuel-indexed function so that the mutually recursive
interceptor / store-refresh loop is executable.
-/

/-- JavaScript runtime values, as far as the modelled code observes them. -/
inductive JsValue where
  | undefined
  | jnull
  | jbool (b : Bool)
  | jnum (n : Nat)
  | jstr (s : String)
  | jobj (fields : List (String × JsValue))

/-- JavaScript truthiness, used by `if (token)` and by `x || fallback`. -/
def JsValue.truthy : JsValue → Bool
  | .undefined => false
  | .jnull => false
  | .jbool b => b
  | .jnum n => n != 0
  | .jstr s => s != ""
  | .jobj _ => true

/-- A value counts as present when it is neither `undefined` nor `null`. -/
def JsValue.present : JsValue → Bool
  | .undefined => false
  | .jnull => false
  | _ => true

/-- The string a value becomes inside a template literal such as
`Bearer ${token}`: `String(null)` is `"null"`, `String(undefined)` is
`"undefined"`. -/
def JsValue.toTemplate : JsValue → String
  | .undefined => "undefined"
  | .jnull => "null"
  | .jbool true => "true"
  | .jbool false => "false"
  | .jnum n => toString n
  | .jstr s => s
  | .jobj _ => "[object Object]"

/-- The object a thrown `TypeError` is modelled as. -/
def tyErrorVal : JsValue := .jobj [("name", .jstr "TypeError")]

/-- Plain property access `v.k`: throws `TypeError` when `v` is
`undefined` or `null`, yields `undefined` for a missing key. -/
def JsValue.getField : JsValue → String → Except JsValue JsValue
  | .undefined, _ => .error tyErrorVal
  | .jnull, _ => .error tyErrorVal
  | .jobj fs, k => .ok ((fs.lookup k).getD .undefined)
  | _, _ => .ok .undefined

/-- Optional-chaining access `v?.k`: never throws, yields `undefined`
when the base is not an object holding the key. -/
def JsValue.getO : JsValue → String → JsValue
  | .jobj fs, k => (fs.lookup k).getD .undefined
  | _, _ => .undefined

/-- The in-memory auth store record of store/auth.ts: `user`, `token` and
`error` are runtime values (`null` initially), the two flags are set only
with boolean literals in the source. -/
structure AuthState where
  user : JsValue
  token : JsValue
  isAuthenticated : Bool
  isLoading : Bool
  error : JsValue

/-- The persisted snapshot produced by the persist middleware through
`partialize`: exactly the fields user, token and isAuthenticated. -/
structure Snapshot where
  user : JsValue
  token : JsValue
  isAuthenticated : Bool

/-- `partialize` of store/auth.ts. -/
def partialize (s : AuthState) : Snapshot :=
  ⟨s.user, s.token, s.isAuthenticated⟩

/-- Store state together with the content of the named localStorage key
`auth-storage` (`none` means the key is absent). -/
def StoreState := AuthState × Option Snapshot

/-- The initial logged-out state created at process start. -/
def initialAuthState : AuthState :=
  { user := .jnull, token := .jnull, isAuthenticated := false,
    isLoading := false, error := .jnull }

/-- Store at first process start: initial state, nothing persisted. -/
def initialStore : StoreState := (initialAuthState, none)

/-- `logout()`: synchronously sets every field back to its cleared value
and then removes the persisted key. -/
def logoutStep (_st : StoreState) : StoreState :=
  ({ user := .jnull, token := .jnull, isAuthenticated := false,
     isLoading := false, error := .jnull }, none)

/-- Rehydration at process start: the persisted triple is merged over the
initial state; `isLoading` and `error` are not persisted and keep their
initial values. -/
def restoreState : Option Snapshot → AuthState
  | none => initialAuthState
  | some sn =>
    { user := sn.user, token := sn.token, isAuthenticated := sn.isAuthenticated,
      isLoading := false, error := .jnull }

/-- The message expression `error.response?.data?.detail || fallback` of
the login/register catch blocks (caught errors are objects in every
path of the modelled code, so the unguarded first access cannot throw). -/
def errMsg (e : JsValue) (fallback : String) : JsValue :=
  let d := ((e.getO "response").getO "data").getO "detail"
  if d.truthy then d else .jstr fallback

/-- The pair `(response.data.user, response.data.access_token)` read by the
login/register success branches; `response` is the value the auth service
resolved with, property access may throw. -/
def extractUserTok (resp : JsValue) : Except JsValue (JsValue × JsValue) := do
  let d ← resp.getField "data"
  let u ← d.getField "user"
  let t ← d.getField "access_token"
  .ok (u, t)

/-- The token `response.data.access_token` read by the refreshToken
success branch. -/
def extractTok (resp : JsValue) : Except JsValue JsValue := do
  let d ← resp.getField "data"
  d.getField "access_token"

/-- Common body of `login` and `register` after the service call settles:
every branch overwrites all five fields (so the earlier
`set({isLoading: true, error: null})` is not visible in the result) and the
persist middleware rewrites the snapshot; failures are rethrown. -/
def authSuccessFail (svc : Except JsValue JsValue) (fallback : String) :
    StoreState × Except JsValue Unit :=
  match svc with
  | .ok p =>
    match extractUserTok p with
    | .ok (u, t) =>
      let s2 : AuthState :=
        { user := u, token := t, isAuthenticated := true,
          isLoading := false, error := .jnull }
      ((s2, some (partialize s2)), .ok ())
    | .error te =>
      let s2 : AuthState :=
        { user := .jnull, token := .jnull, isAuthenticated := false,
          isLoading := false, error := errMsg te fallback }
      ((s2, some (partialize s2)), .error te)
  | .error e =>
    let s2 : AuthState :=
      { user := .jnull, token := .jnull, isAuthenticated := false,
        isLoading := false, error := errMsg e fallback }
    ((s2, some (partialize s2)), .error e)

/-- `login(email, password)` of store/auth.ts, with the settled result of
`authService.login` passed as a parameter. The prior state is not read:
both the success and the failure `set` assign all five fields. -/
def loginStep (_st : StoreState) (svc : Except JsValue JsValue) :
    StoreState × Except JsValue Unit :=
  authSuccessFail svc "Login failed"

/-- `register(email, password, name?)` of store/auth.ts, same contract as
login with the registration fallback message. -/
def registerStep (_st : StoreState) (svc : Except JsValue JsValue) :
    StoreState × Except JsValue Unit :=
  authSuccessFail svc "Registration failed"

/-- The part of `refreshToken()` after its service call settled: on a
resolved call it sets only `token` to `response.data.access_token` (the
property access may throw); on any failure it calls `logout()` and
rethrows. -/
def refreshFinish (st : StoreState) (out : Except JsValue JsValue) :
    StoreState × Except JsValue Unit :=
  match out with
  | .ok p =>
    match extractTok p with
    | .ok t =>
      let s2 := { st.1 with token := t }
      ((s2, some (partialize s2)), .ok ())
    | .error te => (logoutStep st, .error te)
  | .error e => (logoutStep st, .error e)

/-- `refreshToken()` of store/auth.ts with an abstract settled service
result: `if (!token) return` is a no-op success that performs no write. -/
def refreshStep (st : StoreState) (svc : Except JsValue JsValue) :
    StoreState × Except JsValue Unit :=
  if st.1.token.truthy then refreshFinish st svc else (st, .ok ())

/-- An outbound axios request as the interceptors observe it: its path,
its mutable Authorization header and the `_retry` marker (absent, hence
false, on a fresh request). -/
structure Request where
  path : String
  authHeader : Option String
  retry : Bool

/-- Result of one HTTP exchange: a resolved service-level payload (the
`response.data` the service helpers return), or a failure carrying
`error.response` as an optional status/data pair (`none` models a network
error with no response). -/
inductive HttpResult where
  | ok (payload : JsValue)
  | fail (response : Option (Nat × JsValue))

/-- The server as the client observes it: a result for each path and
attempt index (0 = first send of a given request, 1 = its resend). -/
abbrev Server := String → Nat → HttpResult

/-- `error.response?.status === 401`. -/
def is401 : Option (Nat × JsValue) → Bool
  | some (s, _) => s == 401
  | none => false

/-- The axios error object a failed exchange rejects with, as far as the
modelled code reads it. -/
def axiosError : Option (Nat × JsValue) → JsValue
  | some (s, d) => .jobj [("response", .jobj [("status", .jnum s), ("data", d)])]
  | none => .jobj []

/-- What the caller receives from an exchange that the response
interceptor passes through unmodified. -/
def httpOutcome : HttpResult → Except JsValue JsValue
  | .ok p => .ok p
  | .fail r => .error (axiosError r)

/-- `Bearer ${token}`. -/
def bearerOf (t : JsValue) : String := "Bearer " ++ t.toTemplate

/-- The request interceptor of services/auth.ts: inject the bearer header
when the store token is truthy, leave the request untouched otherwise. -/
def attachAuth (s : AuthState) (req : Request) : Request :=
  if s.token.truthy then { req with authHeader := some (bearerOf s.token) } else req

/-- One request through the gateway of services/auth.ts, parameterised
over the behaviour of `useAuthStore.getState().refreshToken()` (which may
mutate the store and reports how many refresh invocations it performed).
Fuel bounds the recursion depth; `none` means the computation did not
settle within the fuel. On a 401 with the `_retry` marker unset the
interceptor sets the marker, awaits one refresh, rewrites the header from
the token read after the refresh and resends through the same pipeline;
the resend result is returned as-is (`return api(originalRequest)` sits
inside the `try`, so a rejected resend does not enter the catch). A
rejected refresh logs out and rejects with the refresh error. Every other
failure is passed through. The returned list holds each request as it
went out on the wire. -/
def runRequestWith (refresh : StoreState → Nat × Option (StoreState × Except JsValue Unit))
    (server : Server) :
    Nat → StoreState → Request → Nat →
    Nat × Option (StoreState × Except JsValue JsValue × List Request)
  | 0, _, _, _ => (0, none)
  | fuel + 1, st, req, attempt =>
    let req0 := attachAuth st.1 req
    match server req.path attempt with
    | .ok payload => (0, some (st, .ok payload, [req0]))
    | .fail r =>
      if is401 r && !req0.retry then
        let req1 := { req0 with retry := true }
        match refresh st with
        | (k, none) => (k, none)
        | (k, some (st1, .ok _)) =>
          let req2 := { req1 with authHeader := some (bearerOf st1.1.token) }
          match runRequestWith refresh server fuel st1 req2 (attempt + 1) with
          | (k2, none) => (k + k2, none)
          | (k2, some (st2, out, sends)) => (k + k2, some (st2, out, req0 :: sends))
        | (k, some (st1, .error rerr)) =>
          (k, some (logoutStep st1, .error rerr, [req0]))
      else (0, some (st, .error (axiosError r), [req0]))

/-- The fresh config created by `api.post('/auth/refresh')`. -/
def refreshRequest : Request := { path := "/auth/refresh", authHeader := none, retry := false }

/-- The real `refreshToken()` of store/auth.ts composed with the gateway:
its own HTTP call runs through both interceptors, so a 401 on it re-enters
`refreshToken()` on a fresh request object. The returned count is the
number of `refreshToken()` invocations that completed or were cut off by
the fuel bound. -/
def systemRefresh (server : Server) :
    Nat → StoreState → Nat × Option (StoreState × Except JsValue Unit)
  | 0, _ => (0, none)
  | fuel + 1, st =>
    if st.1.token.truthy then
      match runRequestWith (systemRefresh server fuel) server fuel st refreshRequest 0 with
      | (k, none) => (k + 1, none)
      | (k, some (st2, out, _sends)) => (k + 1, some (refreshFinish st2 out))
    else (1, some (st, .ok ()))

/-- A request through the gateway with the real store refresh plugged in. -/
def runComposed (server : Server) (fuel : Nat) (st : StoreState) (req : Request) :
    Nat × Option (StoreState × Except JsValue JsValue × List Request) :=
  runRequestWith (systemRefresh server fuel) server fuel st req 0

/-- `login` composed with the gateway: the loading write happens first,
then `authService.login` runs the request through both interceptors, then
the store settles the result (every branch overwrites all five fields). -/
def loginStore (server : Server) (fuel : Nat) (st : StoreState) :
    Nat × Option (StoreState × Except JsValue Unit) :=
  let s1 : AuthState := { st.1 with isLoading := true, error := .jnull }
  match runComposed server fuel (s1, some (partialize s1))
      { path := "/auth/login", authHeader := none, retry := false } with
  | (k, none) => (k, none)
  | (k, some (_st2, out, _sends)) => (k, some (authSuccessFail out "Login failed"))

/-- The user record of store/auth.ts (the TypeScript `User` interface). -/
structure User where
  id : String
  email : String
  name : Option String
  is_active : Bool
  is_verified : Bool
  created_at : String

/-- The runtime object a `User` value is. -/
def User.toJs (u : User) : JsValue :=
  .jobj ([("id", .jstr u.id), ("email", .jstr u.email)] ++
    (match u.name with | some n => [("name", .jstr n)] | none => []) ++
    [("is_active", .jbool u.is_active), ("is_verified", .jbool u.is_verified),
     ("created_at", .jstr u.created_at)])

/-- The store operations of the claim on reachable states, each network
operation parameterised by the settled result of its service call, plus a
process-restart rehydration step. -/
inductive Op where
  | opLogin (svc : Except JsValue JsValue)
  | opRegister (svc : Except JsValue JsValue)
  | opLogout
  | opRefresh (svc : Except JsValue JsValue)
  | opClearError
  | opSetUser (u : User)
  | opSetToken (t : String)
  | opRestore

/-- One store operation applied to the store-plus-storage state. -/
def step (st : StoreState) : Op → StoreState
  | .opLogin svc => (loginStep st svc).1
  | .opRegister svc => (registerStep st svc).1
  | .opLogout => logoutStep st
  | .opRefresh svc => (refreshStep st svc).1
  | .opClearError =>
    let s2 := { st.1 with error := JsValue.jnull }
    (s2, some (partialize s2))
  | .opSetUser u =>
    let s2 := { st.1 with user := u.toJs }
    (s2, some (partialize s2))
  | .opSetToken t =>
    let s2 := { st.1 with token := JsValue.jstr t, isAuthenticated := true }
    (s2, some (partialize s2))
  | .opRestore => (restoreState st.2, st.2)

/-- Running a sequence of store operations from a given state. -/
def runOps (st : StoreState) (ops : List Op) : StoreState :=
  ops.foldl step st

/-- The claimed session invariant on the in-memory state. -/
def InvA (s : AuthState) : Prop :=
  s.isAuthenticated = true → s.token.present = true ∧ s.user.present = true

/-- The session invariant on a persisted snapshot, when one exists. -/
def InvSnap : Option Snapshot → Prop
  | none => True
  | some sn => sn.isAuthenticated = true → sn.token.present = true ∧ sn.user.present = true

/-- The session invariant on store plus storage. -/
def InvS (st : StoreState) : Prop := InvA st.1 ∧ InvSnap st.2

/-- A login/register service result that cannot smuggle a half-present
identity into the store: if the success branch reads both fields without
throwing, both are present. -/
def wfAuthSvc : Except JsValue JsValue → Bool
  | .error _ => true
  | .ok p =>
    match extractUserTok p with
    | .error _ => true
    | .ok (u, t) => u.present && t.present

/-- A refresh service result whose successfully read token is present. -/
def wfRefreshSvc : Except JsValue JsValue → Bool
  | .error _ => true
  | .ok p =>
    match extractTok p with
    | .error _ => true
    | .ok t => t.present

/-- Operations under which the session invariant is claimed after the
correction: `setToken` is excluded and service payloads are well-shaped. -/
def wfOp : Op → Bool
  | .opLogin svc => wfAuthSvc svc
  | .opRegister svc => wfAuthSvc svc
  | .opLogout => true
  | .opRefresh svc => wfRefreshSvc svc
  | .opClearError => true
  | .opSetUser _ => true
  | .opSetToken _ => false
  | .opRestore => true

/-- Modelled from the spec: the backend implementation is not among the
inspected sources; per the HTTP contract of the spec the login success
payload is the object holding the fields `user` and `access_token`. -/
def specLoginPayload : JsValue :=
  .jobj [("user", .jobj [("id", .jstr "1"), ("email", .jstr "a@x.com")]),
         ("access_token", .jstr "T1")]

/-- Modelled from the spec: per the HTTP contract of the spec the refresh
success payload is the object holding the single field `access_token`. -/
def specRefreshPayload : JsValue := .jobj [("access_token", .jstr "T2")]

/-- A server that resolves the login call with the spec-shaped payload. -/
def serverLoginOk : Server := fun path _ =>
  if path == "/auth/login" then .ok specLoginPayload else .fail (some (500, .jobj []))

/-- A server that resolves the refresh call with the spec-shaped payload. -/
def serverRefreshOk : Server := fun path _ =>
  if path == "/auth/refresh" then .ok specRefreshPayload else .fail (some (500, .jobj []))

/-- A server on which every exchange, the refresh call included, fails
with status 401. -/
def server401 : Server := fun _ _ => .fail (some (401, .jobj []))

/-- A concrete user object used in concrete runs. -/
def uJs : JsValue := .jobj [("id", .jstr "1")]

/-- A concrete authenticated store state holding token T1. -/
def stAuthT1 : StoreState :=
  ({ user := uJs, token := .jstr "T1", isAuthenticated := true,
     isLoading := false, error := .jnull },
   some { user := uJs, token := .jstr "T1", isAuthenticated := true })

/-- A concrete fresh data request. -/
def cJobsReq : Request := { path := "/jobs", authHeader := none, retry := false }

/-- A server for the concrete retry run: the data call fails once with 401
and then succeeds, the refresh call resolves with a payload shaped the way
the store actually reads it (wrapped once more under data). -/
def cServerC1 : Server := fun path attempt =>
  if path == "/auth/refresh" then
    .ok (.jobj [("data", .jobj [("access_token", .jstr "T2")])])
  else if attempt == 0 then .fail (some (401, .jobj []))
  else .ok (.jstr "ok")

/-- The store state after the concrete successful refresh. -/
def stAuthT2 : StoreState :=
  ({ user := uJs, token := .jstr "T2", isAuthenticated := true,
     isLoading := false, error := .jnull },
   some { user := uJs, token := .jstr "T2", isAuthenticated := true })

/-- A server for the mid-logout run: the data call fails once with 401 and
its resend succeeds. -/
def cServer9 : Server := fun _ attempt =>
  if attempt == 0 then .fail (some (401, .jobj [])) else .ok (.jstr "ok")

/-- The refresh behaviour when a logout lands between the 401 and the
`refreshToken()` call: the store is cleared, then the real
`refreshToken()` runs and takes its token-absent no-op path. -/
def refreshAfterLogout (server : Server) (st : StoreState) :
    Nat × Option (StoreState × Except JsValue Unit) :=
  systemRefresh server 1 (logoutStep st)

/-- A concrete user argument for `setUser`. -/
def cUser : User :=
  { id := "1", email := "a@x.com", name := none, is_active := true,
    is_verified := false, created_at := "2024-01-01" }

/-- A login payload already wrapped the way the store reads it, with both
identity fields present. -/
def wrappedLoginPayload : JsValue :=
  .jobj [("data", .jobj [("user", uJs), ("access_token", .jstr "T1")])]

/-- A concrete well-formed operation sequence for the invariant claim. -/
def wOpsList : List Op :=
  [Op.opSetUser cUser, Op.opLogin (.ok wrappedLoginPayload),
   Op.opRefresh (.error (.jobj [])), Op.opRestore, Op.opClearError]

theorem attachAuth_path (s : AuthState) (req : Request) :
    (attachAuth s req).path = req.path := by
  unfold attachAuth; split <;> rfl

theorem attachAuth_retry (s : AuthState) (req : Request) :
    (attachAuth s req).retry = req.retry := by
  unfold attachAuth; split <;> rfl

/-- Claim C6: for every prior session state, `logout()` yields a state
with isAuthenticated false, token and user and error null, isLoading
false, and removes the persisted snapshot; the operation involves no
network call. -/
theorem logout_clears_session_and_snapshot (st : StoreState) :
    step st Op.opLogout =
      ({ user := .jnull, token := .jnull, isAuthenticated := false,
         isLoading := false, error := .jnull }, none) := rfl

/-- Claim C10: `clearError()` sets the stored error to null and leaves
user, token, isAuthenticated and isLoading unchanged (the persisted
snapshot is rewritten with the unchanged persisted triple). -/
theorem clearError_only_clears_error (st : StoreState) :
    step st Op.opClearError =
      (⟨st.1.user, st.1.token, st.1.isAuthenticated, st.1.isLoading, .jnull⟩,
       some ⟨st.1.user, st.1.token, st.1.isAuthenticated⟩) := rfl

/-- Claim C8: the persisted snapshot is exactly the triple user, token,
isAuthenticated; restoring a written snapshot at a fresh start yields the
identical triple, while isLoading and error take their initial values
(false and null) because they are never persisted. -/
theorem snapshot_partialize_roundtrip (s : AuthState) :
    partialize s = ⟨s.user, s.token, s.isAuthenticated⟩ ∧
    restoreState (some (partialize s)) =
      ⟨s.user, s.token, s.isAuthenticated, false, .jnull⟩ :=
  ⟨rfl, rfl⟩

/-- Claim C7: every failing login clears user, token and isAuthenticated,
ends with isLoading false, stores the message
`error.response?.data?.detail || 'Login failed'` extracted from the
rejection (caught rejections are objects), and rethrows the same error to
the caller. -/
theorem login_failure_clears_state_and_rethrows (st : StoreState)
    (fs : List (String × JsValue)) :
    loginStep st (.error (.jobj fs)) =
      (({ user := .jnull, token := .jnull, isAuthenticated := false,
          isLoading := false, error := errMsg (.jobj fs) "Login failed" },
        some { user := .jnull, token := .jnull, isAuthenticated := false }),
       .error (.jobj fs)) := rfl

/-- Claim C3, counterexample: from the initial logged-out state the single
store operation `setToken("T1")` yields a state with isAuthenticated true
but no user, so the claimed invariant fails on a reachable state. -/
theorem setToken_violates_auth_invariant :
    (runOps initialStore [Op.opSetToken "T1"]).1.isAuthenticated = true ∧
    (runOps initialStore [Op.opSetToken "T1"]).1.user.present = false :=
  ⟨rfl, rfl⟩

/-- Claim C4: evaluating `login` at the claimed input — the service call
resolves with the payload `{user: {id:"1", email:"a@x.com"},
access_token:"T1"}` of the HTTP contract — the store reads
`response.data.user`, which throws, so the result is the cleared state
with error "Login failed" and a rethrown TypeError, not the claimed
`{user, token:"T1", isAuthenticated:true}`. -/
theorem login_spec_payload_not_stored :
    loginStore serverLoginOk 2 initialStore =
      (0, some ((({ user := .jnull, token := .jnull, isAuthenticated := false,
                    isLoading := false, error := .jstr "Login failed" } : AuthState),
                 some { user := .jnull, token := .jnull, isAuthenticated := false }),
                .error tyErrorVal)) := rfl

/-- Claim C5: evaluating `refreshToken` on a store holding token "T1"
while the refresh endpoint resolves with the contract payload
`{access_token:"T2"}`: the store reads `response.data.access_token`, which
throws, so instead of replacing only the token it logs out (state cleared,
snapshot removed) and propagates a TypeError. -/
theorem refresh_spec_payload_forces_logout :
    systemRefresh serverRefreshOk 2 stAuthT1 =
      (1, some ((({ user := .jnull, token := .jnull, isAuthenticated := false,
                    isLoading := false, error := .jnull } : AuthState), none),
                .error tyErrorVal)) := rfl

theorem attachAuth_id_of_bearer (s : AuthState) (p : String) (b : Bool) :
    attachAuth s { path := p, authHeader := some (bearerOf s.token), retry := b } =
      { path := p, authHeader := some (bearerOf s.token), retry := b } := by
  unfold attachAuth; split <;> rfl

theorem runRequestWith_refresh_ok
    (refresh : StoreState → Nat × Option (StoreState × Except JsValue Unit))
    (server : Server) (fuel : Nat) (st st1 : StoreState) (req : Request)
    (attempt : Nat) (body : JsValue)
    (hretry : req.retry = false)
    (hsrv : server req.path attempt = .fail (some (401, body)))
    (href : refresh st = (1, some (st1, .ok ()))) :
    runRequestWith refresh server (fuel + 1 + 1) st req attempt =
      (1, some (st1, httpOutcome (server req.path (attempt + 1)),
        [attachAuth st.1 req,
         { path := req.path, authHeader := some (bearerOf st1.1.token),
           retry := true }])) := by
  obtain ⟨rp, ra, rr⟩ := req
  simp only at hretry hsrv
  subst hretry
  cases ht : st.1.token.truthy <;> cases ht1 : st1.1.token.truthy <;>
    cases hs2 : server rp (attempt + 1) <;>
      simp [runRequestWith, attachAuth, hsrv, href, is401, httpOutcome, ht, ht1, hs2]

/-- Claim C1: when a request whose retry marker is unset receives a 401
and the awaited `refreshToken()` resolves (performing its one refresh),
the gateway resends the original request exactly once, with the
Authorization header rebuilt from the store token read after the refresh
completed, the total refresh count stays one, and the resend outcome —
success or failure, a second 401 included — is returned to the caller
as-is with no further refresh. -/
theorem gateway_401_single_refresh_single_resend
    (refresh : StoreState → Nat × Option (StoreState × Except JsValue Unit))
    (server : Server) (fuel : Nat) (st st1 : StoreState) (req : Request)
    (body : JsValue)
    (hretry : req.retry = false)
    (hsrv : server req.path 0 = .fail (some (401, body)))
    (href : refresh st = (1, some (st1, .ok ()))) :
    runRequestWith refresh server (fuel + 1 + 1) st req 0 =
      (1, some (st1, httpOutcome (server req.path 1),
        [attachAuth st.1 req,
         { path := req.path, authHeader := some (bearerOf st1.1.token),
           retry := true }])) :=
  runRequestWith_refresh_ok refresh server fuel st st1 req 0 body hretry hsrv href

theorem gateway_401_single_refresh_single_resend_witness :
    runRequestWith (systemRefresh cServerC1 2) cServerC1 (0 + 1 + 1) stAuthT1 cJobsReq 0 =
      (1, some (stAuthT2, httpOutcome (cServerC1 "/jobs" 1),
        [attachAuth stAuthT1.1 cJobsReq,
         { path := "/jobs", authHeader := some (bearerOf stAuthT2.1.token),
           retry := true }])) :=
  gateway_401_single_refresh_single_resend (systemRefresh cServerC1 2) cServerC1 0
    stAuthT1 stAuthT2 cJobsReq (.jobj []) rfl rfl rfl

/-- Claim C9 (amended): when a logout lands between the 401 and the
refresh (so `refreshToken()` resolves through its token-absent no-op path
on the cleared store), the resend is still issued — it is not suppressed —
and because the gateway re-reads the store token at resend time the
Authorization header it carries is the literal string "Bearer null"
rather than an absent header. -/
theorem midlogout_resend_not_suppressed
    (server : Server) (fuel : Nat) (st : StoreState) (req : Request)
    (body : JsValue)
    (hretry : req.retry = false)
    (hsrv : server req.path 0 = .fail (some (401, body))) :
    runRequestWith (refreshAfterLogout server) server (fuel + 1 + 1) st req 0 =
      (1, some (logoutStep st, httpOutcome (server req.path 1),
        [attachAuth st.1 req,
         { path := req.path, authHeader := some "Bearer null",
           retry := true }])) :=
  runRequestWith_refresh_ok (refreshAfterLogout server) server fuel st
    (logoutStep st) req 0 body hretry hsrv rfl

theorem midlogout_resend_not_suppressed_witness :
    runRequestWith (refreshAfterLogout cServer9) cServer9 (0 + 1 + 1) stAuthT1 cJobsReq 0 =
      (1, some (logoutStep stAuthT1, httpOutcome (cServer9 "/jobs" 1),
        [attachAuth stAuthT1.1 cJobsReq,
         { path := "/jobs", authHeader := some "Bearer null",
           retry := true }])) :=
  midlogout_resend_not_suppressed cServer9 0 stAuthT1 cJobsReq (.jobj []) rfl rfl

/-- Claim C9, counterexample: in the concrete mid-logout run the resend
does go out, but with the Authorization header present and equal to
"Bearer null" — it is not the credential-free request the claim
describes. -/
theorem midlogout_resend_has_bearer_null_header :
    runRequestWith (refreshAfterLogout cServer9) cServer9 2 stAuthT1 cJobsReq 0 =
      (1, some ((({ user := .jnull, token := .jnull, isAuthenticated := false,
                    isLoading := false, error := .jnull } : AuthState), none),
                .ok (.jstr "ok"),
                [{ path := "/jobs", authHeader := some "Bearer T1", retry := false },
                 { path := "/jobs", authHeader := some "Bearer null", retry := true }])) ∧
    some "Bearer null" ≠ (none : Option String) :=
  ⟨rfl, by simp⟩

theorem run401_inner
    (r : StoreState → Nat × Option (StoreState × Except JsValue Unit))
    (fuel k : Nat) (req : Request) (attempt : Nat)
    (hreq : req.retry = false) (hr : r stAuthT1 = (k, none)) :
    runRequestWith r server401 (fuel + 1) stAuthT1 req attempt = (k, none) := by
  obtain ⟨rp, ra, rr⟩ := req
  simp only at hreq
  subst hreq
  simp [runRequestWith, server401, is401, attachAuth, hr,
    show stAuthT1.1.token.truthy = true from rfl]

theorem systemRefresh_all401 (fuel : Nat) :
    systemRefresh server401 fuel stAuthT1 = (fuel, none) := by
  induction fuel with
  | zero => rfl
  | succ f ih =>
    cases f with
    | zero => rfl
    | succ g =>
      have h1 : systemRefresh server401 (g + 1 + 1) stAuthT1 =
          (match runRequestWith (systemRefresh server401 (g + 1)) server401
              (g + 1) stAuthT1 refreshRequest 0 with
           | (k, none) => (k + 1, none)
           | (k, some (st2, out, _sends)) => (k + 1, some (refreshFinish st2 out))) := rfl
      rw [h1, run401_inner (systemRefresh server401 (g + 1)) g (g + 1)
        refreshRequest 0 rfl ih]

/-- Claim C2: on a server that answers 401 to every exchange, the refresh
call included, the pipeline started on an authenticated store never
settles: each 401 on the refresh request marks that fresh request object
retried and invokes `refreshToken()` again, so for every fuel bound the
run is cut off with exactly `fuel` refresh invocations performed and the
promised terminal logout never happens — the protocol does enter an
unbounded refresh loop. -/
theorem refresh_401_unbounded_refresh_loop (fuel : Nat) :
    runComposed server401 fuel stAuthT1 cJobsReq = (fuel, none) := by
  cases fuel with
  | zero => rfl
  | succ f =>
    have h1 : runComposed server401 (f + 1) stAuthT1 cJobsReq =
        runRequestWith (systemRefresh server401 (f + 1)) server401 (f + 1)
          stAuthT1 cJobsReq 0 := rfl
    rw [h1, run401_inner (systemRefresh server401 (f + 1)) f (f + 1)
      cJobsReq 0 rfl (systemRefresh_all401 (f + 1))]

theorem step_preserves_inv (st : StoreState) (op : Op)
    (h : InvS st) (hw : wfOp op = true) : InvS (step st op) := by
  cases op with
  | opLogin svc =>
    cases svc with
    | error e =>
      simp [step, loginStep, authSuccessFail, InvS, InvA, InvSnap, partialize,
        JsValue.present]
    | ok p =>
      cases hx : extractUserTok p with
      | error te =>
        simp [step, loginStep, authSuccessFail, hx, InvS, InvA, InvSnap,
          partialize, JsValue.present]
      | ok ut =>
        obtain ⟨u, t⟩ := ut
        simp only [wfOp, wfAuthSvc, hx, Bool.and_eq_true] at hw
        simp [step, loginStep, authSuccessFail, hx, InvS, InvA, InvSnap,
          partialize, hw.1, hw.2]
  | opRegister svc =>
    cases svc with
    | error e =>
      simp [step, registerStep, authSuccessFail, InvS, InvA, InvSnap, partialize,
        JsValue.present]
    | ok p =>
      cases hx : extractUserTok p with
      | error te =>
        simp [step, registerStep, authSuccessFail, hx, InvS, InvA, InvSnap,
          partialize, JsValue.present]
      | ok ut =>
        obtain ⟨u, t⟩ := ut
        simp only [wfOp, wfAuthSvc, hx, Bool.and_eq_true] at hw
        simp [step, registerStep, authSuccessFail, hx, InvS, InvA, InvSnap,
          partialize, hw.1, hw.2]
  | opLogout =>
    simp [step, logoutStep, InvS, InvA, InvSnap, JsValue.present]
  | opRefresh svc =>
    simp only [step, refreshStep]
    by_cases ht : st.1.token.truthy = true
    · cases svc with
      | error e =>
        simp [ht, refreshFinish, logoutStep, InvS, InvA, InvSnap, JsValue.present]
      | ok p =>
        cases hx : extractTok p with
        | error te =>
          simp [ht, refreshFinish, hx, logoutStep, InvS, InvA, InvSnap,
            JsValue.present]
        | ok t =>
          simp only [wfOp, wfRefreshSvc, hx] at hw
          simp only [ht, if_true, refreshFinish, hx]
          refine ⟨fun hc => ?_, fun hc => ?_⟩
          · exact ⟨hw, (h.1 hc).2⟩
          · exact ⟨hw, (h.1 hc).2⟩
    · simp only [Bool.not_eq_true] at ht
      simp [ht]
      exact h
  | opClearError =>
    refine ⟨fun hc => h.1 hc, fun hc => h.1 hc⟩
  | opSetUser u =>
    refine ⟨fun hc => ⟨(h.1 hc).1, ?_⟩, fun hc => ⟨(h.1 hc).1, ?_⟩⟩ <;>
      simp [step, partialize, User.toJs, JsValue.present]
  | opSetToken t =>
    simp [wfOp] at hw
  | opRestore =>
    cases hsn : st.2 with
    | none =>
      simp [step, restoreState, hsn, InvS, InvA, InvSnap, initialAuthState,
        JsValue.present]
    | some sn =>
      have h2 := h.2
      rw [hsn] at h2
      simp only [step, hsn, restoreState]
      exact ⟨fun hc => h2 hc, h2⟩

theorem runOps_inv (ops : List Op) : ∀ st : StoreState, InvS st →
    (∀ op ∈ ops, wfOp op = true) → InvS (runOps st ops) := by
  induction ops with
  | nil => intro st h _; exact h
  | cons o os ih =>
    intro st h hw
    exact ih (step st o) (step_preserves_inv st o h (hw o (List.mem_cons_self o os)))
      (fun op hop => hw op (List.mem_cons_of_mem o hop))

/-- Claim C3 (amended): every state reachable from the initial logged-out
state by sequences of login, register, logout, refreshToken, setUser,
clearError and snapshot restore — `setToken` excluded, and with service
success payloads whose successfully read identity fields are present —
satisfies the invariant: isAuthenticated implies token and user are
present. -/
theorem auth_invariant_reachable_no_setToken (ops : List Op)
    (hw : ∀ op ∈ ops, wfOp op = true) :
    InvA (runOps initialStore ops).1 :=
  (runOps_inv ops initialStore
    ⟨fun hc => absurd hc (by simp [initialStore, initialAuthState]), trivial⟩ hw).1

theorem auth_invariant_reachable_no_setToken_witness :
    InvA (runOps initialStore wOpsList).1 :=
  auth_invariant_reachable_no_setToken wOpsList (by decide)
